import Mathlib

/-!
Verification of the boussole PR-command handler (`boussole/boussole.py`)
against its natural-language specification.

The remote GitHub API is modelled as a deterministic environment `Env`:
every endpoint the handler reads is a field (or a function of the request
parameters).  Each handler operation is translated into a pure function
that returns its result together with the list of remote calls it issued,
and termination of the whole invocation (`sys.exit`, or an uncaught Python
exception) is captured by the `PyResult` type.
-/

namespace Boussole

/-- Result of running a piece of the handler: a normal return value,
a `sys.exit(code)` termination, or an uncaught Python exception. -/
inductive PyResult (α : Type) where
  | ok : α → PyResult α
  | exited : Nat → PyResult α
  | raised : String → PyResult α
deriving DecidableEq, Repr

/-- A PR discussion comment as returned by `issues/comments`:
the fields the handler reads (`body`, `user.login`, `html_url`). -/
structure CommentD where
  body : String
  userLogin : String
  htmlUrl : String
deriving DecidableEq, Repr

/-- A check run attached to the head commit (`commits/sha/check-runs`). -/
structure CheckRun where
  name : String
  status : String
  conclusion : Option String
  htmlUrl : String
deriving DecidableEq, Repr

/-- A PR commit as returned by `pulls/commits`. -/
structure CommitD where
  sha : String
  message : String
deriving DecidableEq, Repr

/-- The parts of the `pulls/number` payload the handler reads:
the head commit SHA and the base branch name. -/
structure PRStatusData where
  headSha : String
  baseRef : String
deriving DecidableEq, Repr

/-- Row of the `failed_checks + pending_checks` list built by
`_check_runs_status`.  The `conclusion` field is `some c` for failed rows
(the dict carries a `conclusion` key, whose JSON value may itself be null)
and `none` for pending rows (the dict has no `conclusion` key, which is why
`merge_pr` falls back to showing the `status` for those rows). -/
structure CheckInfo where
  name : String
  status : String
  conclusion : Option (Option String)
  htmlUrl : String
deriving DecidableEq, Repr

/-- Endpoints of the remote API that the modelled operations read or write.
Each constructor stands for the concrete path built in the source:
`comments n` is `issues/n/comments`, `permission u` is
`collaborators/u/permission`, `prStatus n` is `pulls/n`, `checkRuns s` is
`commits/s/check-runs`, `prCommits n` is `pulls/n/commits`, and
`branchRef b` is `git/refs/heads/b`. -/
inductive Endpoint where
  | comments (prNum : Nat)
  | permission (user : String)
  | prStatus (prNum : Nat)
  | checkRuns (sha : String)
  | prCommits (prNum : Nat)
  | branchRef (branch : String)
deriving DecidableEq, Repr

/-- Data each user-facing notification carries (the spec places the exact
Markdown wording out of scope; only the data of each notification is
modelled).  Each constructor corresponds to one template of `messages.py`. -/
inductive Message where
  | selfApprovalError (user : String)
  | lgtmBreakdown (validVotes threshold : Nat) (users : List (String × Option String))
  | insufficientPermissions (user : String) (permission : Option String)
  | checksNotPassed (rows : List CheckInfo)
  | notEnoughLgtm (validVotes threshold : Nat)
  | successMerged (validVotes : Nat)
  | mergeFailed (prNum statusCode : Nat) (errorText : String)
  | cherryPickAck (targetBranch : String)
  | cherryPickError (sourcePr : Nat) (targetBranch statusCode errorText : String)
  | cherryPickSuccess (sourcePr : Nat) (targetBranch user commitSha : String)
  | cherryPickConflict (prNum : Nat) (targetBranch : String)
      (currentCommit totalCommits : Nat) (commitSha : String)
deriving DecidableEq, Repr

/-- Remote calls the handler can issue. `postComment` is a POST to
`issues/n/comments`, `postReview` a POST to `pulls/n/reviews`,
`postCreateBranch` a POST to `git/refs`, `postMergeCommit` a POST to
`merges` (cherry-pick of one commit onto a branch), `putMergePR` the PUT
to `pulls/n/merge`. -/
inductive ApiCall where
  | get (e : Endpoint)
  | postComment (msg : Message)
  | postReview (event : String)
  | postCreateBranch (branch sha : String)
  | postMergeCommit (base head : String)
  | putMergePR
deriving DecidableEq, Repr

/-- Configuration of one invocation (`PRHandler.__init__` from parsed args). -/
structure Cfg where
  prNum : Nat
  prSender : String
  commentSender : String
  lgtmThreshold : Nat
  lgtmPermissions : List String
  lgtmReviewEvent : String
deriving DecidableEq, Repr

/-- Deterministic model of the remote repository state for one invocation:
the response every endpoint would give.  A status field is the HTTP status
code, the companion field the relevant part of the JSON payload. -/
structure Env where
  commentsStatus : Nat
  comments : List CommentD
  permStatus : String → Nat
  permVal : String → Option String
  prStatus : PRStatusData
  checkRunsFetchStatus : Nat
  checkRuns : List CheckRun
  commitsStatus : Nat
  commits : List CommitD
  branchStatus : String → Nat
  branchShaVal : String → Option String
  createBranchStatus : String → Nat
  mergePostStatus : String → String → Nat
  mergePostSha : String → String → String
  mergePostText : String → String → String
  mergePutStatus : Nat
  mergePutText : String
  reviewPostStatus : Nat

/-- Python word character for the regex escape `\b` after `/lgtm`
(ASCII letters, digits, underscore). -/
def isWordChar (c : Char) : Bool := c.isAlphanum || c = '_'

/-- Translation of `re.search(r"^/lgtm\b", body, re.IGNORECASE)`:
without MULTILINE the anchor matches only at the start of the string, so
the body must begin with `/lgtm` (letters case-insensitive) followed by a
non-word character or the end of the string. -/
def matchesLgtmCommand (body : String) : Bool :=
  match body.toList with
  | '/' :: c1 :: c2 :: c3 :: c4 :: rest =>
    c1.toLower = 'l' && c2.toLower = 'g' && c3.toLower = 't' && c4.toLower = 'm' &&
    (match rest with
     | [] => true
     | c :: _ => !(isWordChar c))
  | _ => false

/-- Python whitespace class `\s` (space, tab, newline, carriage return,
vertical tab, form feed). -/
def isPySpace (c : Char) : Bool :=
  c = ' ' || c = '\t' || c = '\n' || c = '\r' || c = '\x0b' || c = '\x0c'

/-- Helper for `re.match(r"^/cherry-pick\s+(\S+)", body, re.IGNORECASE)`:
consume the pattern characters case-insensitively from the front. -/
def dropPrefixCI : List Char → List Char → Option (List Char)
  | [], cs => some cs
  | _ :: _, [] => none
  | p :: ps, c :: cs => if c.toLower = p then dropPrefixCI ps cs else none

/-- Translation of `re.match(r"^/cherry-pick\s+(\S+)", body, re.IGNORECASE)`:
the body must start with `/cherry-pick`, then at least one whitespace
character, then the captured group is the following maximal run of
non-whitespace characters (which must be non-empty). -/
def parseCherryPickTarget (body : String) : Option String :=
  match dropPrefixCI "/cherry-pick".toList body.toList with
  | none => none
  | some rest =>
    match rest with
    | [] => none
    | c :: cs =>
      if isPySpace c then
        let afterSpaces := cs.dropWhile isPySpace
        let captured := afterSpaces.takeWhile (fun d => !(isPySpace d))
        if captured.isEmpty then none else some (String.mk captured)
      else none

/-- Format-argument names referenced by `APPROVED_TEMPLATE` in
`messages.py`, in template order (the template greets `@` followed by the
`pr_sender` replacement field). -/
def approvedTemplateArgs : List String :=
  ["pr_sender", "threshold", "valid_votes", "users_table"]

/-- Keyword-argument names that `PRHandler.lgtm` passes to
`APPROVED_TEMPLATE.format` (`threshold`, `valid_votes`, `users_table`). -/
def approvedFormatProvided : List String :=
  ["threshold", "valid_votes", "users_table"]

/-- Format-argument names referenced by `CHERRY_PICK_CONFLICT` in
`messages.py`, in template order.  The template was written with f-string
syntax and references the field `self.pr_num`, whose format argument name
is `self`. -/
def cherryPickConflictTemplateArgs : List String :=
  ["self", "target_branch", "current_commit", "total_commits", "commit_sha"]

/-- Keyword-argument names that `PRHandler._handle_merge_conflict` passes
to `CHERRY_PICK_CONFLICT.format`. -/
def cherryPickConflictFormatProvided : List String :=
  ["pr_num", "target_branch", "current_commit", "total_commits", "commit_sha"]

/-- Format-argument names referenced by `SUCCESS_MERGED` in
`messages.py`, in template order: the template ends by thanking `@`
followed by the `pr_sender` replacement field. -/
def successMergedTemplateArgs : List String :=
  ["merge_method", "comment_sender", "valid_votes", "lgtm_threshold",
    "users_table", "pr_sender"]

/-- Keyword-argument names that `PRHandler.merge_pr` passes to
`SUCCESS_MERGED.format` (`pr_sender` is not among them). -/
def successMergedFormatProvided : List String :=
  ["merge_method", "comment_sender", "valid_votes", "lgtm_threshold",
    "users_table"]

/-- First format-argument name of the template that is not among the
provided keyword arguments: `str.format` raises `KeyError` on it.
Returns `none` when every referenced argument is provided. -/
def pyFormatMissingKey (templateArgs provided : List String) : Option String :=
  templateArgs.find? (fun a => !(provided.contains a))

/-- Translation of `PRHandler._check_membership` minus the remote call:
404 means not a collaborator, any other non-200 is a permission-check
error, a missing or empty `permission` field is missing data; otherwise
the permission string is returned along with its membership in the
required permission list. -/
def checkMembershipResult (env : Env) (cfg : Cfg) (user : String) :
    Option String × Bool :=
  if env.permStatus user = 404 then (none, false)
  else if env.permStatus user ≠ 200 then (none, false)
  else
    match env.permVal user with
    | none => (none, false)
    | some p =>
      if p = "" then (none, false)
      else (some p, cfg.lgtmPermissions.contains p)

/-- Translation of `PRHandler._check_membership`: one GET of
`collaborators/user/permission` is issued before any of the branches. -/
def checkMembership (env : Env) (cfg : Cfg) (user : String) :
    (Option String × Bool) × List ApiCall :=
  (checkMembershipResult env cfg user, [ApiCall.get (Endpoint.permission user)])

/-- Python dict insertion `lgtm_users[user] = None` restricted to the keys:
a later duplicate login leaves the key list unchanged. -/
def insertIfAbsent (acc : List String) (u : String) : List String :=
  if u ∈ acc then acc else acc ++ [u]

/-- The comment-scan loop shared by `_fetch_and_validate_lgtm_votes` and
`lgtm`: for each comment whose body matches the `/lgtm` pattern, a
self-approval by the PR sender posts the self-approval notification and
exits with code 1; otherwise the author is recorded once. -/
def scanLgtmComments (cfg : Cfg) :
    List CommentD → List String → PyResult (List String) × List ApiCall
  | [], acc => (.ok acc, [])
  | c :: rest, acc =>
    if matchesLgtmCommand c.body then
      if c.userLogin = cfg.prSender then
        (.exited 1, [ApiCall.postComment (Message.selfApprovalError c.userLogin)])
      else
        scanLgtmComments cfg rest (insertIfAbsent acc c.userLogin)
    else
      scanLgtmComments cfg rest acc

/-- The vote-tally loop shared by `_fetch_and_validate_lgtm_votes` and
`lgtm`: each recorded login is resolved through `_check_membership` (one
GET per login) and counted when valid. -/
def tallyVotes (env : Env) (cfg : Cfg) :
    List String → (Nat × List (String × Option String)) × List ApiCall
  | [] => ((0, []), [])
  | u :: rest =>
    let r := checkMembershipResult env cfg u
    let t := tallyVotes env cfg rest
    ((if r.snd then t.fst.fst + 1 else t.fst.fst, (u, r.fst) :: t.fst.snd),
      ApiCall.get (Endpoint.permission u) :: t.snd)

/-- Translation of `PRHandler._fetch_and_validate_lgtm_votes`: fetch the
PR comments (non-200 is fatal with exit 1), scan them for `/lgtm` votes
(self-approval is fatal), then resolve and count the recorded voters. -/
def fetchAndValidateLgtmVotes (env : Env) (cfg : Cfg) :
    PyResult (Nat × List (String × Option String)) × List ApiCall :=
  let tr0 := [ApiCall.get (Endpoint.comments cfg.prNum)]
  if env.commentsStatus ≠ 200 then (.exited 1, tr0)
  else
    match scanLgtmComments cfg env.comments [] with
    | (.ok users, trS) =>
      let t := tallyVotes env cfg users
      (.ok t.fst, tr0 ++ trS ++ t.snd)
    | (.exited k, trS) => (.exited k, tr0 ++ trS)
    | (.raised e, trS) => (.raised e, tr0 ++ trS)

/-- Translation of `PRHandler.lgtm` (which inlines the same fetch, scan
and tally code as `_fetch_and_validate_lgtm_votes`): when the threshold is
met the approval review body is built with `APPROVED_TEMPLATE.format`
(whose referenced argument `pr_sender` is not among the provided keyword
arguments, so `str.format` raises `KeyError`), then the review is posted
without inspecting the response and the vote count returned; below the
threshold a breakdown comment is posted when `sendComment` and the
invocation exits with code 0. -/
def lgtm (env : Env) (cfg : Cfg) (sendComment : Bool) : PyResult Nat × List ApiCall :=
  match fetchAndValidateLgtmVotes env cfg with
  | (.ok (validVotes, lgtmUsers), tr0) =>
    if validVotes ≥ cfg.lgtmThreshold then
      match pyFormatMissingKey approvedTemplateArgs approvedFormatProvided with
      | some k => (.raised ("KeyError: " ++ k), tr0)
      | none => (.ok validVotes, tr0 ++ [ApiCall.postReview cfg.lgtmReviewEvent])
    else
      if sendComment then
        (.exited 0, tr0 ++
          [ApiCall.postComment (Message.lgtmBreakdown validVotes cfg.lgtmThreshold lgtmUsers)])
      else (.exited 0, tr0)
  | (.exited k, tr0) => (.exited k, tr0)
  | (.raised e, tr0) => (.raised e, tr0)

/-- Translation of `PRHandler._get_pr_status` with its `_pr_status` cache:
the boolean records whether the `pulls/n` response is already cached, in
which case no GET is issued. -/
def getPrStatus (env : Env) (cfg : Cfg) (cached : Bool) :
    PRStatusData × Bool × List ApiCall :=
  if cached then (env.prStatus, true, [])
  else (env.prStatus, true, [ApiCall.get (Endpoint.prStatus cfg.prNum)])

/-- The `failed_checks` list of `_check_runs_status`: completed runs whose
conclusion is neither `success` nor `skipped` (their row dict carries the
`conclusion` key). -/
def failedChecksOf (runs : List CheckRun) : List CheckInfo :=
  (runs.filter fun ch =>
      ch.status = "completed" && ch.conclusion ≠ some "success"
        && ch.conclusion ≠ some "skipped").map
    fun ch => CheckInfo.mk ch.name ch.status (some ch.conclusion) ch.htmlUrl

/-- The `pending_checks` list of `_check_runs_status`: runs not completed,
excluding the bot's own check (name ending in the marker string); their
row dict has no `conclusion` key. -/
def pendingChecksOf (runs : List CheckRun) : List CheckInfo :=
  (runs.filter fun ch =>
      ch.status ≠ "completed" && !(ch.name.endsWith " / boussole")).map
    fun ch => CheckInfo.mk ch.name ch.status none ch.htmlUrl

/-- Translation of `PRHandler._check_runs_status`: resolve the head SHA
through the (possibly cached) PR status, fetch its check runs (a non-200
yields `(false, [])`), and otherwise partition into failed and pending
rows; all checks pass exactly when both lists are empty. -/
def checkRunsStatus (env : Env) (cfg : Cfg) (cached : Bool) :
    (Bool × List CheckInfo) × Bool × List ApiCall :=
  let (prs, cached2, tr0) := getPrStatus env cfg cached
  let tr1 := tr0 ++ [ApiCall.get (Endpoint.checkRuns prs.headSha)]
  if env.checkRunsFetchStatus ≠ 200 then ((false, []), cached2, tr1)
  else
    let failedChecks := failedChecksOf env.checkRuns
    let pendingChecks := pendingChecksOf env.checkRuns
    ((failedChecks.isEmpty && pendingChecks.isEmpty, failedChecks ++ pendingChecks),
      cached2, tr1)

/-- Translation of `PRHandler._get_pr_commits`: a non-200 yields the empty
list. -/
def getPrCommits (env : Env) (cfg : Cfg) : List CommitD × List ApiCall :=
  (if env.commitsStatus ≠ 200 then [] else env.commits,
    [ApiCall.get (Endpoint.prCommits cfg.prNum)])

/-- Translation of `PRHandler._get_branch_sha`: a non-200 yields `None`,
otherwise the nested `object.sha` field (possibly absent). -/
def getBranchSha (env : Env) (b : String) : Option String × List ApiCall :=
  (if env.branchStatus b ≠ 200 then none else env.branchShaVal b,
    [ApiCall.get (Endpoint.branchRef b)])

/-- Python falsiness of a string-or-None value (`if not current_sha`):
`None` and the empty string are falsy. -/
def strOptFalsy : Option String → Bool
  | none => true
  | some s => s = ""

/-- Translation of `PRHandler._create_branch`: POST `git/refs`; success is
exactly a 201 response. -/
def createBranch (env : Env) (branchName baseSha : String) : Bool × List ApiCall :=
  (env.createBranchStatus branchName = 201,
    [ApiCall.postCreateBranch branchName baseSha])

/-- Translation of `PRHandler._handle_merge_conflict`: it formats
`CHERRY_PICK_CONFLICT` with keyword arguments `pr_num`, `target_branch`,
`current_commit`, `total_commits`, `commit_sha`; since the template
references the argument `self` (the leftover f-string field
`self.pr_num`), `str.format` raises `KeyError` before the conflict comment
can be posted. -/
def handleMergeConflict (cfg : Cfg) (targetBranch commitSha : String)
    (currentCommit totalCommits : Nat) : PyResult Unit × List ApiCall :=
  match pyFormatMissingKey cherryPickConflictTemplateArgs
      cherryPickConflictFormatProvided with
  | some k => (.raised ("KeyError: " ++ k), [])
  | none =>
    (.ok (), [ApiCall.postComment
      (Message.cherryPickConflict cfg.prNum targetBranch currentCommit
        totalCommits commitSha)])

/-- The commit-application loop of `_perform_cherry_pick`
(`for i, commit in enumerate(commits, 1)`): each commit is POSTed to
`merges`; a 409 invokes `_handle_merge_conflict` and stops with a `False`
return (`ok none` here, or the propagated exception), any other non-201
posts a cherry-pick error and stops with `False`; a 201 records the
returned SHA as the new branch tip.  `ok (some sha)` is the fully
successful exit of the loop with the final SHA. -/
def applyCommits (env : Env) (cfg : Cfg) (targetBranch : String) (total : Nat) :
    List CommitD → Nat → String → PyResult (Option String) × List ApiCall
  | [], _, currentSha => (.ok (some currentSha), [])
  | c :: rest, i, _currentSha =>
    let tr0 := [ApiCall.postMergeCommit targetBranch c.sha]
    let st := env.mergePostStatus targetBranch c.sha
    if st = 409 then
      match handleMergeConflict cfg targetBranch c.sha i total with
      | (.ok _, trC) => (.ok none, tr0 ++ trC)
      | (.exited k, trC) => (.exited k, tr0 ++ trC)
      | (.raised e, trC) => (.raised e, tr0 ++ trC)
    else if st ≠ 201 then
      (.ok none, tr0 ++ [ApiCall.postComment
        (Message.cherryPickError cfg.prNum targetBranch (toString st)
          (env.mergePostText targetBranch c.sha))])
    else
      let t := applyCommits env cfg targetBranch total rest (i + 1)
        (env.mergePostSha targetBranch c.sha)
      (t.fst, tr0 ++ t.snd)

/-- Translation of `PRHandler._perform_cherry_pick`: fetch the PR commits
(an empty result posts an error and returns `False`); resolve the target
branch SHA, creating the branch from the PR's base branch SHA when the
target does not resolve (failure of base resolution or of branch creation
posts an error and returns `False`); then apply the commits in order and
post the success notification carrying the final SHA. -/
def performCherryPick (env : Env) (cfg : Cfg) (cached : Bool)
    (targetBranch : String) : PyResult Bool × Bool × List ApiCall :=
  let commits := (getPrCommits env cfg).fst
  let tr0 := (getPrCommits env cfg).snd
  if commits.isEmpty then
    (.ok false, cached, tr0 ++ [ApiCall.postComment
      (Message.cherryPickError cfg.prNum targetBranch "404"
        "Could not fetch PR commits")])
  else
    let currentSha0 := (getBranchSha env targetBranch).fst
    let tr1 := (getBranchSha env targetBranch).snd
    let startResolution :=
      if strOptFalsy currentSha0 then
        let trP := (getPrStatus env cfg cached).snd.snd
        let baseBranch := env.prStatus.baseRef
        let baseSha := (getBranchSha env baseBranch).fst
        let trB := (getBranchSha env baseBranch).snd
        if strOptFalsy baseSha then
          (none, true, trP ++ trB ++ [ApiCall.postComment
            (Message.cherryPickError cfg.prNum targetBranch "404"
              ("Could not find base branch: " ++ baseBranch))])
        else
          let bs := baseSha.getD ""
          let trC := (createBranch env targetBranch bs).snd
          if (createBranch env targetBranch bs).fst then
            (some bs, true, trP ++ trB ++ trC)
          else
            (none, true, trP ++ trB ++ trC ++ [ApiCall.postComment
              (Message.cherryPickError cfg.prNum targetBranch "422"
                ("Could not create branch: " ++ targetBranch))])
      else (some (currentSha0.getD ""), cached, ([] : List ApiCall))
    match startResolution with
    | (none, cached2, trR) => (.ok false, cached2, tr0 ++ tr1 ++ trR)
    | (some startSha, cached2, trR) =>
      match applyCommits env cfg targetBranch commits.length commits 1 startSha with
      | (.ok (some finalSha), trL) =>
        (.ok true, cached2, tr0 ++ tr1 ++ trR ++ trL ++ [ApiCall.postComment
          (Message.cherryPickSuccess cfg.prNum targetBranch cfg.commentSender
            finalSha)])
      | (.ok none, trL) => (.ok false, cached2, tr0 ++ tr1 ++ trR ++ trL)
      | (.exited k, trL) => (.exited k, cached2, tr0 ++ tr1 ++ trR ++ trL)
      | (.raised e, trL) => (.raised e, cached2, tr0 ++ tr1 ++ trR ++ trL)

/-- The cherry-pick directive collection of `merge_pr`: every comment
matching `/cherry-pick target` contributes its target branch, collected
into a Python set.  The set is modelled as a first-occurrence-ordered
deduplicated list; the iteration order of the Python set over strings is
implementation-defined, and no proved property depends on which order is
chosen. -/
def collectCherryPickBranches (comments : List CommentD) : List String :=
  comments.foldl
    (fun acc c =>
      match parseCherryPickTarget c.body with
      | some b => insertIfAbsent acc b
      | none => acc) []

/-- The cherry-pick loop of `merge_pr`
(`for target_branch in cherry_pick_branches`): the first branch whose
cherry-pick does not return `True` makes `merge_pr` return `False`, and no
later branch is processed. -/
def processCherryPicks (env : Env) (cfg : Cfg) :
    Bool → List String → PyResult Bool × Bool × List ApiCall
  | cached, [] => (.ok true, cached, [])
  | cached, b :: rest =>
    match performCherryPick env cfg cached b with
    | (.ok true, cached2, tr) =>
      let (r, cached3, tr2) := processCherryPicks env cfg cached2 rest
      (r, cached3, tr ++ tr2)
    | (.ok false, cached2, tr) => (.ok false, cached2, tr)
    | (.exited k, cached2, tr) => (.exited k, cached2, tr)
    | (.raised e, cached2, tr) => (.raised e, cached2, tr)

/-- Translation of `PRHandler.merge_pr`: sender permission precondition
(fatal on failure), check-run gate (fatal when not all green, posting the
offending rows), vote collection and threshold test (below threshold posts
a non-fatal notification and returns `False`), the merge PUT (non-200
posts a merge-failed notification and returns `False`), then on a 200 the
comments are re-fetched (non-200 is fatal), the `/cherry-pick` targets
collected and processed, and finally the success notification is built
with `SUCCESS_MERGED.format` — whose referenced argument `pr_sender` is
not among the provided keyword arguments, so `str.format` raises
`KeyError` there and the success comment is never posted. -/
def mergePr (env : Env) (cfg : Cfg) (cached : Bool) :
    PyResult Bool × List ApiCall :=
  let r := checkMembershipResult env cfg cfg.commentSender
  let trA := [ApiCall.get (Endpoint.permission cfg.commentSender)]
  if !r.snd then
    (.exited 1, trA ++ [ApiCall.postComment
      (Message.insufficientPermissions cfg.commentSender r.fst)])
  else
    let cr := checkRunsStatus env cfg cached
    let allPassed := cr.fst.fst
    let failedChecks := cr.fst.snd
    let cached2 := cr.snd.fst
    let trB := cr.snd.snd
    if !allPassed then
      (.exited 1, trA ++ trB ++
        [ApiCall.postComment (Message.checksNotPassed failedChecks)])
    else
      match fetchAndValidateLgtmVotes env cfg with
      | (.exited k, trC) => (.exited k, trA ++ trB ++ trC)
      | (.raised e, trC) => (.raised e, trA ++ trB ++ trC)
      | (.ok (validVotes, _lgtmUsers), trC) =>
        if validVotes ≥ cfg.lgtmThreshold then
          let trD := [ApiCall.putMergePR]
          if env.mergePutStatus = 200 then
            let trE := [ApiCall.get (Endpoint.comments cfg.prNum)]
            if env.commentsStatus ≠ 200 then
              (.exited 1, trA ++ trB ++ trC ++ trD ++ trE)
            else
              let branches := collectCherryPickBranches env.comments
              match processCherryPicks env cfg cached2 branches with
              | (.ok true, _cached3, trF) =>
                match pyFormatMissingKey successMergedTemplateArgs
                    successMergedFormatProvided with
                | some k =>
                  (.raised ("KeyError: " ++ k),
                    trA ++ trB ++ trC ++ trD ++ trE ++ trF)
                | none =>
                  (.ok true, trA ++ trB ++ trC ++ trD ++ trE ++ trF ++
                    [ApiCall.postComment (Message.successMerged validVotes)])
              | (.ok false, _cached3, trF) =>
                (.ok false, trA ++ trB ++ trC ++ trD ++ trE ++ trF)
              | (.exited k, _cached3, trF) =>
                (.exited k, trA ++ trB ++ trC ++ trD ++ trE ++ trF)
              | (.raised e, _cached3, trF) =>
                (.raised e, trA ++ trB ++ trC ++ trD ++ trE ++ trF)
          else
            (.ok false, trA ++ trB ++ trC ++ trD ++ [ApiCall.postComment
              (Message.mergeFailed cfg.prNum env.mergePutStatus env.mergePutText)])
        else
          (.ok false, trA ++ trB ++ trC ++
            [ApiCall.postComment (Message.notEnoughLgtm validVotes cfg.lgtmThreshold)])

/-- Translation of `PRHandler.cherry_pick` (the handler of the
`/cherry-pick` trigger command): any argument count other than one exits
with code 1; a single branch argument posts the acknowledgment comment
that the cherry-pick will happen upon merge. -/
def cherryPick (values : List String) : PyResult Unit × List ApiCall :=
  if values.length ≠ 1 then (.exited 1, [])
  else
    (.ok (), [ApiCall.postComment
      (Message.cherryPickAck (values.headD ""))])

/-- Logins of the comments matching the `/lgtm` pattern, in comment order
(with duplicates). -/
def lgtmLogins (comments : List CommentD) : List String :=
  (comments.filter fun c => matchesLgtmCommand c.body).map fun c => c.userLogin

/-- A login whose resolved permission lies in the required permission set. -/
def isValidVoter (env : Env) (cfg : Cfg) (u : String) : Bool :=
  (checkMembershipResult env cfg u).snd

theorem insertIfAbsent_mem {acc : List String} {u x : String} :
    x ∈ insertIfAbsent acc u ↔ x ∈ acc ∨ x = u := by
  unfold insertIfAbsent
  by_cases h : u ∈ acc
  · simp only [if_pos h]
    constructor
    · exact Or.inl
    · rintro (hx | rfl)
      · exact hx
      · exact h
  · simp [if_neg h]

theorem insertIfAbsent_nodup {acc : List String} {u : String} (h : acc.Nodup) :
    (insertIfAbsent acc u).Nodup := by
  unfold insertIfAbsent
  by_cases hm : u ∈ acc
  · simpa [if_pos hm] using h
  · simp [if_neg hm, List.nodup_append, h, hm]

theorem foldl_insertIfAbsent_mem (l : List String) :
    ∀ (acc : List String) (x : String),
      x ∈ l.foldl insertIfAbsent acc ↔ x ∈ acc ∨ x ∈ l := by
  induction l with
  | nil => intro acc x; simp
  | cons u rest ih =>
    intro acc x
    rw [List.foldl_cons, ih]
    rw [insertIfAbsent_mem]
    simp only [List.mem_cons]
    tauto

theorem foldl_insertIfAbsent_nodup (l : List String) :
    ∀ acc : List String, acc.Nodup → (l.foldl insertIfAbsent acc).Nodup := by
  induction l with
  | nil => intro acc h; simpa using h
  | cons u rest ih =>
    intro acc h
    rw [List.foldl_cons]
    exact ih _ (insertIfAbsent_nodup h)

theorem scanLgtmComments_self (cfg : Cfg) (comments : List CommentD) :
    ∀ acc : List String,
      (∃ c ∈ comments, matchesLgtmCommand c.body = true ∧ c.userLogin = cfg.prSender) →
      scanLgtmComments cfg comments acc =
        (PyResult.exited 1,
          [ApiCall.postComment (Message.selfApprovalError cfg.prSender)]) := by
  induction comments with
  | nil => intro acc h; simp at h
  | cons c rest ih =>
    intro acc h
    by_cases hm : matchesLgtmCommand c.body = true
    · by_cases hs : c.userLogin = cfg.prSender
      · simp [scanLgtmComments, hm, hs]
      · have hrest : ∃ d ∈ rest,
            matchesLgtmCommand d.body = true ∧ d.userLogin = cfg.prSender := by
          rcases h with ⟨d, hd, hdm, hds⟩
          rcases List.mem_cons.mp hd with rfl | hd'
          · exact absurd hds hs
          · exact ⟨d, hd', hdm, hds⟩
        simpa [scanLgtmComments, hm, hs] using ih _ hrest
    · have hrest : ∃ d ∈ rest,
          matchesLgtmCommand d.body = true ∧ d.userLogin = cfg.prSender := by
        rcases h with ⟨d, hd, hdm, hds⟩
        rcases List.mem_cons.mp hd with rfl | hd'
        · exact absurd hdm hm
        · exact ⟨d, hd', hdm, hds⟩
      simpa [scanLgtmComments, hm] using ih _ hrest

theorem scanLgtmComments_no_self (cfg : Cfg) (comments : List CommentD) :
    ∀ acc : List String,
      (∀ c ∈ comments, matchesLgtmCommand c.body = true → c.userLogin ≠ cfg.prSender) →
      scanLgtmComments cfg comments acc =
        (PyResult.ok ((lgtmLogins comments).foldl insertIfAbsent acc), []) := by
  induction comments with
  | nil => intro acc _; simp [scanLgtmComments, lgtmLogins]
  | cons c rest ih =>
    intro acc h
    have hrest : ∀ d ∈ rest, matchesLgtmCommand d.body = true → d.userLogin ≠ cfg.prSender :=
      fun d hd => h d (List.mem_cons_of_mem _ hd)
    by_cases hm : matchesLgtmCommand c.body = true
    · have hs : c.userLogin ≠ cfg.prSender := h c (List.mem_cons_self _ _) hm
      have step : scanLgtmComments cfg (c :: rest) acc
          = scanLgtmComments cfg rest (insertIfAbsent acc c.userLogin) := by
        simp [scanLgtmComments, hm, hs]
      rw [step, ih _ hrest]
      simp [lgtmLogins, hm]
    · have step : scanLgtmComments cfg (c :: rest) acc
          = scanLgtmComments cfg rest acc := by
        simp [scanLgtmComments, hm]
      rw [step, ih _ hrest]
      simp [lgtmLogins, hm]

theorem scanLgtmComments_cases (cfg : Cfg) (comments : List CommentD) :
    ∀ acc : List String, acc.Nodup →
      (∃ users, scanLgtmComments cfg comments acc = (PyResult.ok users, []) ∧ users.Nodup) ∨
      (∃ u, scanLgtmComments cfg comments acc =
        (PyResult.exited 1, [ApiCall.postComment (Message.selfApprovalError u)])) := by
  induction comments with
  | nil => intro acc h; exact Or.inl ⟨acc, by simp [scanLgtmComments], h⟩
  | cons c rest ih =>
    intro acc h
    by_cases hm : matchesLgtmCommand c.body = true
    · by_cases hs : c.userLogin = cfg.prSender
      · exact Or.inr ⟨c.userLogin, by simp [scanLgtmComments, hm, hs]⟩
      · have := ih (insertIfAbsent acc c.userLogin) (insertIfAbsent_nodup h)
        simpa [scanLgtmComments, hm, hs] using this
    · have := ih acc h
      simpa [scanLgtmComments, hm] using this

theorem tallyVotes_count (env : Env) (cfg : Cfg) (users : List String) :
    (tallyVotes env cfg users).fst.fst = users.countP (isValidVoter env cfg) := by
  induction users with
  | nil => simp [tallyVotes]
  | cons u rest ih =>
    simp only [tallyVotes, List.countP_cons, isValidVoter]
    by_cases hv : (checkMembershipResult env cfg u).snd = true
    · simp [hv, ih]
    · simp [hv, ih, Bool.not_eq_true _ ▸ hv]

theorem tallyVotes_trace (env : Env) (cfg : Cfg) (users : List String) :
    (tallyVotes env cfg users).snd =
      users.map fun u => ApiCall.get (Endpoint.permission u) := by
  induction users with
  | nil => simp [tallyVotes]
  | cons u rest ih => simp [tallyVotes, ih]

theorem fetchAndValidateLgtmVotes_count (env : Env) (cfg : Cfg)
    (h200 : env.commentsStatus = 200)
    (hself : ∀ c ∈ env.comments,
      matchesLgtmCommand c.body = true → c.userLogin ≠ cfg.prSender) :
    (fetchAndValidateLgtmVotes env cfg).fst =
      PyResult.ok
        ((lgtmLogins env.comments).dedup.countP (isValidVoter env cfg),
          (tallyVotes env cfg
            ((lgtmLogins env.comments).foldl insertIfAbsent [])).fst.snd) := by
  unfold fetchAndValidateLgtmVotes
  rw [if_neg (by simp [h200])]
  rw [scanLgtmComments_no_self cfg env.comments [] hself]
  have hL :
      ((lgtmLogins env.comments).foldl insertIfAbsent []).countP (isValidVoter env cfg)
        = (lgtmLogins env.comments).dedup.countP (isValidVoter env cfg) := by
    have hnd1 : ((lgtmLogins env.comments).foldl insertIfAbsent []).Nodup :=
      foldl_insertIfAbsent_nodup _ [] (by simp)
    have hnd2 : (lgtmLogins env.comments).dedup.Nodup := List.nodup_dedup _
    have hp : List.Perm ((lgtmLogins env.comments).foldl insertIfAbsent [])
        (lgtmLogins env.comments).dedup := by
      rw [List.perm_ext_iff_of_nodup hnd1 hnd2]
      intro x
      rw [foldl_insertIfAbsent_mem, List.mem_dedup]
      simp
    exact hp.countP_eq _
  show PyResult.ok (tallyVotes env cfg ((lgtmLogins env.comments).foldl insertIfAbsent [])).fst
      = PyResult.ok
        ((lgtmLogins env.comments).dedup.countP (isValidVoter env cfg),
          (tallyVotes env cfg ((lgtmLogins env.comments).foldl insertIfAbsent [])).fst.snd)
  have ht : (tallyVotes env cfg ((lgtmLogins env.comments).foldl insertIfAbsent [])).fst.fst
      = (lgtmLogins env.comments).dedup.countP (isValidVoter env cfg) := by
    rw [tallyVotes_count]
    exact hL
  rw [← ht]

/-- C1: for every comment list fetched during a vote scan, a comment whose
body matches the `/lgtm` pattern and whose author is the PR's sender makes
`_fetch_and_validate_lgtm_votes` post the self-approval notification and
terminate the invocation with exit code 1, producing no vote tally. -/
theorem lgtm_self_approval_fatal (env : Env) (cfg : Cfg)
    (h200 : env.commentsStatus = 200)
    (hself : ∃ c ∈ env.comments,
      matchesLgtmCommand c.body = true ∧ c.userLogin = cfg.prSender) :
    (fetchAndValidateLgtmVotes env cfg).fst = PyResult.exited 1 ∧
      ApiCall.postComment (Message.selfApprovalError cfg.prSender)
        ∈ (fetchAndValidateLgtmVotes env cfg).snd := by
  unfold fetchAndValidateLgtmVotes
  rw [if_neg (by simp [h200])]
  rw [scanLgtmComments_self cfg env.comments [] hself]
  simp

/-- Shared base configuration for the concrete instantiations below
(PR number 123, sender `test_user`, triggering commenter `reviewer`,
threshold 1, permissions admin and write). -/
def baseCfg : Cfg := ⟨123, "test_user", "reviewer", 1, ["admin", "write"], "APPROVE"⟩

/-- Shared base remote state for the concrete instantiations below:
everything healthy and green, every user a collaborator with write
permission, one PR commit, every branch resolvable. -/
def baseEnv : Env where
  commentsStatus := 200
  comments := []
  permStatus := fun _ => 200
  permVal := fun _ => some "write"
  prStatus := ⟨"headsha", "main"⟩
  checkRunsFetchStatus := 200
  checkRuns := []
  commitsStatus := 200
  commits := [⟨"c1", "m1"⟩]
  branchStatus := fun _ => 200
  branchShaVal := fun b => some ("sha-" ++ b)
  createBranchStatus := fun _ => 201
  mergePostStatus := fun _ _ => 201
  mergePostSha := fun _ c => "new-" ++ c
  mergePostText := fun _ _ => "merge error"
  mergePutStatus := 200
  mergePutText := ""
  reviewPostStatus := 201

/-- Comment list with a self-approval by the PR sender among other votes. -/
def envC1 : Env :=
  { baseEnv with comments :=
      [⟨"/lgtm", "r1", "u1"⟩, ⟨"/lgtm nice", "test_user", "u2"⟩, ⟨"/lgtm", "r2", "u3"⟩] }

theorem lgtm_self_approval_fatal_witness :
    (fetchAndValidateLgtmVotes envC1 baseCfg).fst = PyResult.exited 1 ∧
      ApiCall.postComment (Message.selfApprovalError baseCfg.prSender)
        ∈ (fetchAndValidateLgtmVotes envC1 baseCfg).snd :=
  lgtm_self_approval_fatal envC1 baseCfg (by decide) (by decide)

/-- C2: with no self-approval, the vote collector returns a count equal to
the number of distinct `/lgtm`-commenting logins whose resolved permission
lies in the required set (so duplicate comments by one login add nothing),
and any permutation of the comment list yields the same count. -/
theorem lgtm_vote_count_distinct_valid (env : Env) (cfg : Cfg)
    (comments' : List CommentD)
    (h200 : env.commentsStatus = 200)
    (hself : ∀ c ∈ env.comments,
      matchesLgtmCommand c.body = true → c.userLogin ≠ cfg.prSender)
    (hperm : comments'.Perm env.comments) :
    (∃ users, (fetchAndValidateLgtmVotes env cfg).fst =
      PyResult.ok
        ((lgtmLogins env.comments).dedup.countP (isValidVoter env cfg), users)) ∧
    (∃ users', (fetchAndValidateLgtmVotes { env with comments := comments' } cfg).fst =
      PyResult.ok
        ((lgtmLogins env.comments).dedup.countP (isValidVoter env cfg), users')) := by
  constructor
  · exact ⟨_, fetchAndValidateLgtmVotes_count env cfg h200 hself⟩
  · have hself' : ∀ c ∈ comments',
        matchesLgtmCommand c.body = true → c.userLogin ≠ cfg.prSender :=
      fun c hc => hself c (hperm.mem_iff.mp hc)
    have hvalid : isValidVoter { env with comments := comments' } cfg
        = isValidVoter env cfg := rfl
    have hcount : (lgtmLogins comments').dedup.countP (isValidVoter env cfg)
        = (lgtmLogins env.comments).dedup.countP (isValidVoter env cfg) :=
      (((hperm.filter _).map _).dedup).countP_eq _
    have hcount2 :
        (lgtmLogins ({ env with comments := comments' } : Env).comments).dedup.countP
            (isValidVoter { env with comments := comments' } cfg)
          = (lgtmLogins env.comments).dedup.countP (isValidVoter env cfg) := hcount
    refine ⟨(tallyVotes { env with comments := comments' } cfg
        ((lgtmLogins ({ env with comments := comments' } : Env).comments).foldl
          insertIfAbsent [])).fst.snd,
      (fetchAndValidateLgtmVotes_count { env with comments := comments' } cfg
        h200 hself').trans ?_⟩
    exact congrArg
      (fun n => PyResult.ok (n,
        (tallyVotes { env with comments := comments' } cfg
          ((lgtmLogins ({ env with comments := comments' } : Env).comments).foldl
            insertIfAbsent [])).fst.snd))
      hcount2

/-- Comment list with duplicate votes: three `/lgtm` comments from two
distinct logins, one of which lacks the required permission. -/
def envC2 : Env :=
  { baseEnv with
      comments :=
        [⟨"/lgtm", "r1", "u1"⟩, ⟨"hello", "bob", "u2"⟩,
          ⟨"/lgtm", "r2", "u3"⟩, ⟨"/lgtm again", "r1", "u4"⟩],
      permVal := fun u => if u = "r2" then some "read" else some "write" }

theorem lgtm_vote_count_distinct_valid_witness :
    (∃ users, (fetchAndValidateLgtmVotes envC2 baseCfg).fst =
      PyResult.ok
        ((lgtmLogins envC2.comments).dedup.countP (isValidVoter envC2 baseCfg), users)) ∧
    (∃ users', (fetchAndValidateLgtmVotes
        { envC2 with comments :=
            [⟨"/lgtm again", "r1", "u4"⟩, ⟨"/lgtm", "r2", "u3"⟩,
              ⟨"hello", "bob", "u2"⟩, ⟨"/lgtm", "r1", "u1"⟩] } baseCfg).fst =
      PyResult.ok
        ((lgtmLogins envC2.comments).dedup.countP (isValidVoter envC2 baseCfg), users')) :=
  lgtm_vote_count_distinct_valid envC2 baseCfg _ (by decide) (by decide) (by decide)

theorem checkRunsStatus_ok (env : Env) (cfg : Cfg) (cached : Bool)
    (h : env.checkRunsFetchStatus = 200) :
    checkRunsStatus env cfg cached =
      (((failedChecksOf env.checkRuns).isEmpty && (pendingChecksOf env.checkRuns).isEmpty,
        failedChecksOf env.checkRuns ++ pendingChecksOf env.checkRuns), true,
        (if cached then [] else [ApiCall.get (Endpoint.prStatus cfg.prNum)]) ++
          [ApiCall.get (Endpoint.checkRuns env.prStatus.headSha)]) := by
  cases cached <;> simp [checkRunsStatus, getPrStatus, h]

theorem checkRunsStatus_fetch_fail (env : Env) (cfg : Cfg) (cached : Bool)
    (h : env.checkRunsFetchStatus ≠ 200) :
    checkRunsStatus env cfg cached =
      ((false, []), true,
        (if cached then [] else [ApiCall.get (Endpoint.prStatus cfg.prNum)]) ++
          [ApiCall.get (Endpoint.checkRuns env.prStatus.headSha)]) := by
  cases cached <;> simp [checkRunsStatus, getPrStatus, h]

/-- C3: with a permitted sender, when the failed-or-pending check list is
non-empty, `merge_pr` posts the checks-not-passed notification carrying
exactly that list, terminates with exit code 1, and issues no merge PUT.
Failed rows are the completed runs with conclusion outside success and
skipped; pending rows are the non-completed runs except the bot's own. -/
theorem merge_blocked_when_checks_not_green (env : Env) (cfg : Cfg) (cached : Bool)
    (hsender : (checkMembershipResult env cfg cfg.commentSender).snd = true)
    (hfetch : env.checkRunsFetchStatus = 200)
    (hbad : failedChecksOf env.checkRuns ++ pendingChecksOf env.checkRuns ≠ []) :
    (mergePr env cfg cached).fst = PyResult.exited 1 ∧
      ApiCall.postComment (Message.checksNotPassed
        (failedChecksOf env.checkRuns ++ pendingChecksOf env.checkRuns))
        ∈ (mergePr env cfg cached).snd ∧
      ApiCall.putMergePR ∉ (mergePr env cfg cached).snd := by
  have hflag : ((failedChecksOf env.checkRuns).isEmpty
      && (pendingChecksOf env.checkRuns).isEmpty) = false := by
    rcases hf : failedChecksOf env.checkRuns with _ | ⟨a, l⟩
    · rcases hp : pendingChecksOf env.checkRuns with _ | ⟨b, m⟩
      · exact absurd (by simp [hf, hp]) hbad
      · simp
    · simp
  cases cached <;>
    simp [mergePr, checkRunsStatus_ok env cfg _ hfetch, hsender, hflag]

/-- Completed check run with a failing conclusion. -/
def envC3 : Env :=
  { baseEnv with checkRuns := [⟨"ci/test", "completed", some "failure", "urlF"⟩] }

theorem merge_blocked_when_checks_not_green_witness :
    (mergePr envC3 baseCfg true).fst = PyResult.exited 1 ∧
      ApiCall.postComment (Message.checksNotPassed
        (failedChecksOf envC3.checkRuns ++ pendingChecksOf envC3.checkRuns))
        ∈ (mergePr envC3 baseCfg true).snd ∧
      ApiCall.putMergePR ∉ (mergePr envC3 baseCfg true).snd :=
  merge_blocked_when_checks_not_green envC3 baseCfg true (by decide) (by decide)
    (by decide)

/-- C10: with a permitted sender, a non-200 response on the check-runs
fetch makes `_check_runs_status` return `(false, [])`, so `merge_pr`
posts a checks-not-passed notification whose table of offending rows is
empty and exits with code 1, just as for genuinely failing checks. -/
theorem merge_check_fetch_error_blocks (env : Env) (cfg : Cfg) (cached : Bool)
    (hsender : (checkMembershipResult env cfg cfg.commentSender).snd = true)
    (hfetch : env.checkRunsFetchStatus ≠ 200) :
    (checkRunsStatus env cfg cached).fst = (false, []) ∧
      (mergePr env cfg cached).fst = PyResult.exited 1 ∧
      ApiCall.postComment (Message.checksNotPassed [])
        ∈ (mergePr env cfg cached).snd := by
  cases cached <;>
    simp [mergePr, checkRunsStatus_fetch_fail env cfg _ hfetch, hsender]

/-- Check-runs endpoint answering with a server error. -/
def envC10 : Env := { baseEnv with checkRunsFetchStatus := 500 }

theorem merge_check_fetch_error_blocks_witness :
    (checkRunsStatus envC10 baseCfg true).fst = (false, []) ∧
      (mergePr envC10 baseCfg true).fst = PyResult.exited 1 ∧
      ApiCall.postComment (Message.checksNotPassed [])
        ∈ (mergePr envC10 baseCfg true).snd :=
  merge_check_fetch_error_blocks envC10 baseCfg true (by decide) (by decide)

/-- PR with three commits whose second cherry-pick merge returns 409. -/
def envC4 : Env :=
  { baseEnv with
      commits := [⟨"c1", "m1"⟩, ⟨"c2", "m2"⟩, ⟨"c3", "m3"⟩],
      mergePostStatus := fun _ c => if c = "c2" then 409 else 201 }

/-- C4: on a 409 for commit 2 of 3, the sequencer stops after the second
merge POST (commit 3 is never attempted, commit 2 never retried), but the
conflict report promised by the spec is never posted: formatting
`CHERRY_PICK_CONFLICT` raises `KeyError` on the template argument `self`,
so the invocation dies with an uncaught exception instead. -/
theorem cherry_pick_conflict_raises_key_error :
    performCherryPick envC4 baseCfg true "rel" =
      (PyResult.raised "KeyError: self", true,
        [ApiCall.get (Endpoint.prCommits 123),
          ApiCall.get (Endpoint.branchRef "rel"),
          ApiCall.postMergeCommit "rel" "c1",
          ApiCall.postMergeCommit "rel" "c2"]) := by decide

/-- Two distinct `/lgtm` voters with write permission and threshold 2,
the input of the repository's own `test_lgtm`. -/
def envC9 : Env :=
  { baseEnv with
      comments := [⟨"/lgtm", "r1", "u1"⟩, ⟨"/lgtm", "r2", "u2"⟩] }

/-- Threshold of two approvals. -/
def cfgC9 : Cfg := { baseCfg with lgtmThreshold := 2 }

/-- C9: when the vote count meets the threshold, `lgtm` is supposed to
post the approval review and return the count (the repository's own
`test_lgtm` asserts the return value 2); instead, building the review
body raises `KeyError` on the template argument `pr_sender` (referenced
by `APPROVED_TEMPLATE` but not passed to `format`), so no review POST is
issued and nothing is returned. -/
theorem lgtm_approval_path_raises_key_error :
    lgtm envC9 cfgC9 true =
      (PyResult.raised "KeyError: pr_sender",
        [ApiCall.get (Endpoint.comments 123),
          ApiCall.get (Endpoint.permission "r1"),
          ApiCall.get (Endpoint.permission "r2")]) := by decide

/-- One valid voter, two cherry-pick directives, and a `merges` endpoint
that rejects every commit application with a 422. -/
def envC5 : Env :=
  { baseEnv with
      comments :=
        [⟨"/lgtm", "dave", "u1"⟩, ⟨"/cherry-pick b1", "x", "u2"⟩,
          ⟨"/cherry-pick b2", "y", "u3"⟩],
      mergePostStatus := fun _ _ => 422 }

/-- C5 counterexample: with two target branches named and the first
cherry-pick failing, `merge_pr` returns `False` without ever touching the
second branch — its ref is never resolved and no commit is applied to it,
refuting the claim that every named branch has its cherry-pick attempted. -/
theorem merge_cherry_pick_abort_counterexample :
    (mergePr envC5 baseCfg true).fst = PyResult.ok false ∧
      ApiCall.get (Endpoint.branchRef "b1") ∈ (mergePr envC5 baseCfg true).snd ∧
      ApiCall.get (Endpoint.branchRef "b2") ∉ (mergePr envC5 baseCfg true).snd ∧
      ApiCall.postMergeCommit "b2" "c1" ∉ (mergePr envC5 baseCfg true).snd := by
  decide

/-- C5 amended: a cherry-pick returning `False` on one target branch makes
the branch loop of `merge_pr` stop immediately: the overall result is
`False` and the branches after it contribute no remote calls. -/
theorem cherry_pick_failure_stops_remaining_branches (env : Env) (cfg : Cfg)
    (cached : Bool) (b : String) (rest : List String)
    (h : (performCherryPick env cfg cached b).fst = PyResult.ok false) :
    processCherryPicks env cfg cached (b :: rest) =
      (PyResult.ok false, (performCherryPick env cfg cached b).snd.fst,
        (performCherryPick env cfg cached b).snd.snd) := by
  rcases hpc : performCherryPick env cfg cached b with ⟨r, c2, tr⟩
  have hr : r = PyResult.ok false := by rw [hpc] at h; exact h
  subst hr
  simp [processCherryPicks, hpc]

theorem cherry_pick_failure_stops_remaining_branches_witness :
    processCherryPicks envC5 baseCfg true ["b1", "b2"] =
      (PyResult.ok false, (performCherryPick envC5 baseCfg true "b1").snd.fst,
        (performCherryPick envC5 baseCfg true "b1").snd.snd) :=
  cherry_pick_failure_stops_remaining_branches envC5 baseCfg true "b1" ["b2"]
    (by decide)

/-- Triggering commenter who also cast an `/lgtm` vote. -/
def envC7 : Env :=
  { baseEnv with comments := [⟨"/lgtm", "reviewer", "u1"⟩] }

/-- C7 counterexample: a login that is both the merge-triggering sender
and an `/lgtm` voter is fetched twice from the permission endpoint in a
single `merge_pr` invocation — there is no cross-call memoization.  Both
GETs (sender pre-check and vote tally) are issued before the invocation
later dies formatting the success notification, whose template references
the unprovided argument `pr_sender`. -/
theorem permission_lookup_duplicated_counterexample :
    ((mergePr envC7 baseCfg true).snd.count
      (ApiCall.get (Endpoint.permission "reviewer"))) = 2 ∧
      (mergePr envC7 baseCfg true).fst
        = PyResult.raised "KeyError: pr_sender" := by decide

/-- C7 amended: within one vote collection the candidate map deduplicates
logins, so each login's permission is fetched at most once there (repeated
`/lgtm` comments by the same user cause no duplicate remote call); the
duplicate fetch arises only across the separate sender pre-check. -/
theorem vote_scan_permission_get_at_most_once (env : Env) (cfg : Cfg) (u : String) :
    ((fetchAndValidateLgtmVotes env cfg).snd.count
      (ApiCall.get (Endpoint.permission u))) ≤ 1 := by
  unfold fetchAndValidateLgtmVotes
  by_cases h200 : env.commentsStatus = 200
  · rw [if_neg (by simp [h200])]
    rcases scanLgtmComments_cases cfg env.comments [] (by simp) with
      ⟨users, hscan, hnd⟩ | ⟨v, hscan⟩
    · rw [hscan]
      show List.count (ApiCall.get (Endpoint.permission u))
          ([ApiCall.get (Endpoint.comments cfg.prNum)] ++ [] ++
            (tallyVotes env cfg users).snd) ≤ 1
      rw [tallyVotes_trace]
      have hinj : Function.Injective
          (fun v => ApiCall.get (Endpoint.permission v)) := by
        intro a b hab
        injection hab with h1
        injection h1
      rw [List.count_append, List.count_append]
      have h1 : List.count (ApiCall.get (Endpoint.permission u))
          [ApiCall.get (Endpoint.comments cfg.prNum)] = 0 := by
        simp [List.count_cons]
      have h2 : List.count (ApiCall.get (Endpoint.permission u))
          (users.map fun v => ApiCall.get (Endpoint.permission v))
            = users.count u :=
        List.count_map_of_injective users _ hinj u
      rw [h1, h2]
      simpa using List.nodup_iff_count_le_one.mp hnd u
    · rw [hscan]
      show List.count (ApiCall.get (Endpoint.permission u))
          ([ApiCall.get (Endpoint.comments cfg.prNum)] ++
            [ApiCall.postComment (Message.selfApprovalError v)]) ≤ 1
      simp [List.count_append, List.count_cons]
  · rw [if_pos (by simp [h200])]
    show List.count (ApiCall.get (Endpoint.permission u))
        [ApiCall.get (Endpoint.comments cfg.prNum)] ≤ 1
    simp [List.count_cons]

/-- C8 counterexample: handling `/cherry-pick release-1` has exactly one
effect, posting the upon-merge acknowledgment comment — no sequencer call
(no commit fetch, no branch resolution, no merge POST) is issued. -/
theorem cherry_pick_handler_only_acknowledges :
    cherryPick ["release-1"] =
      (PyResult.ok (),
        [ApiCall.postComment (Message.cherryPickAck "release-1")]) := by decide

/-- C8 amended: with exactly one argument the `/cherry-pick` handler only
posts the acknowledgment that the cherry-pick will happen upon merge (the
sequencer itself runs during `/merge` handling); any other argument count
exits with code 1 and posts nothing. -/
theorem cherry_pick_handler_ack_or_fatal (b : String) (vs : List String)
    (h : vs.length ≠ 1) :
    cherryPick [b] =
      (PyResult.ok (), [ApiCall.postComment (Message.cherryPickAck b)]) ∧
      cherryPick vs = (PyResult.exited 1, []) := by
  constructor
  · simp [cherryPick]
  · simp [cherryPick, h]

theorem cherry_pick_handler_ack_or_fatal_witness :
    cherryPick ["rel-2"] =
      (PyResult.ok (), [ApiCall.postComment (Message.cherryPickAck "rel-2")]) ∧
      cherryPick ["a", "b"] = (PyResult.exited 1, []) :=
  cherry_pick_handler_ack_or_fatal "rel-2" ["a", "b"] (by decide)

/-- C6: when the target branch SHA does not resolve, the sequencer
resolves the PR's base branch SHA; if that fails, the operation returns
failed with a diagnostic naming the base branch and no branch-creation
call is issued; if it succeeds and creation succeeds, the branch-creation
POST from the base SHA sits in the trace right after the resolution GETs
and before anything else — in particular before any commit application. -/
theorem cherry_pick_branch_creation_from_base (env : Env) (cfg : Cfg)
    (cached : Bool) (tb : String)
    (hcs : env.commitsStatus = 200)
    (hne : env.commits ≠ [])
    (htb : strOptFalsy (getBranchSha env tb).fst = true) :
    (strOptFalsy (getBranchSha env env.prStatus.baseRef).fst = true →
      (performCherryPick env cfg cached tb).fst = PyResult.ok false ∧
      (∀ b s, ApiCall.postCreateBranch b s ∉ (performCherryPick env cfg cached tb).snd.snd) ∧
      ApiCall.postComment (Message.cherryPickError cfg.prNum tb "404"
          ("Could not find base branch: " ++ env.prStatus.baseRef))
        ∈ (performCherryPick env cfg cached tb).snd.snd) ∧
    (strOptFalsy (getBranchSha env env.prStatus.baseRef).fst = false →
      (createBranch env tb
        ((getBranchSha env env.prStatus.baseRef).fst.getD "")).fst = true →
      ∃ suffix, (performCherryPick env cfg cached tb).snd.snd =
        [ApiCall.get (Endpoint.prCommits cfg.prNum),
          ApiCall.get (Endpoint.branchRef tb)] ++
        (if cached then [] else [ApiCall.get (Endpoint.prStatus cfg.prNum)]) ++
        [ApiCall.get (Endpoint.branchRef env.prStatus.baseRef),
          ApiCall.postCreateBranch tb
            ((getBranchSha env env.prStatus.baseRef).fst.getD "")] ++
        suffix) := by
  have hcommits : (getPrCommits env cfg).fst = env.commits := by
    simp [getPrCommits, hcs]
  have hnemp : env.commits.isEmpty = false := by
    cases h : env.commits with
    | nil => exact absurd h hne
    | cons a l => rfl
  have htr0 : (getPrCommits env cfg).snd
      = [ApiCall.get (Endpoint.prCommits cfg.prNum)] := rfl
  have htr1 : (getBranchSha env tb).snd
      = [ApiCall.get (Endpoint.branchRef tb)] := rfl
  have htrB : (getBranchSha env env.prStatus.baseRef).snd
      = [ApiCall.get (Endpoint.branchRef env.prStatus.baseRef)] := rfl
  constructor
  · intro hbase
    cases cached <;>
      simp [performCherryPick, hcommits, hnemp, htb, hbase, htr0, htr1, htrB,
        getPrStatus, createBranch]
  · intro hbase hcreate
    have hcreate2 : env.createBranchStatus tb = 201 := by
      simpa [createBranch] using hcreate
    rcases happly : applyCommits env cfg tb env.commits.length env.commits 1
        ((getBranchSha env env.prStatus.baseRef).fst.getD "") with ⟨r, trL⟩
    cases r with
    | ok o =>
      cases o with
      | some s =>
        refine ⟨trL ++ [ApiCall.postComment
          (Message.cherryPickSuccess cfg.prNum tb cfg.commentSender s)], ?_⟩
        cases cached <;>
          simp [performCherryPick, hcommits, hnemp, htb, hbase, hcreate2, htr0,
            htr1, htrB, getPrStatus, createBranch, happly]
      | none =>
        refine ⟨trL, ?_⟩
        cases cached <;>
          simp [performCherryPick, hcommits, hnemp, htb, hbase, hcreate2, htr0,
            htr1, htrB, getPrStatus, createBranch, happly]
    | exited k =>
      refine ⟨trL, ?_⟩
      cases cached <;>
        simp [performCherryPick, hcommits, hnemp, htb, hbase, hcreate2, htr0,
          htr1, htrB, getPrStatus, createBranch, happly]
    | raised e =>
      refine ⟨trL, ?_⟩
      cases cached <;>
        simp [performCherryPick, hcommits, hnemp, htb, hbase, hcreate2, htr0,
          htr1, htrB, getPrStatus, createBranch, happly]

/-- Target branch `rel-miss` absent and the base branch also unresolvable. -/
def envC6a : Env :=
  { baseEnv with
      branchStatus := fun _ => 404 }

/-- Target branch `rel-miss` absent, base branch resolvable, creation ok. -/
def envC6b : Env :=
  { baseEnv with
      branchStatus := fun b => if b = "rel-miss" then 404 else 200 }

theorem cherry_pick_branch_creation_from_base_witness :
    ((performCherryPick envC6a baseCfg true "rel-miss").fst = PyResult.ok false ∧
      (∀ b s, ApiCall.postCreateBranch b s
        ∉ (performCherryPick envC6a baseCfg true "rel-miss").snd.snd) ∧
      ApiCall.postComment (Message.cherryPickError baseCfg.prNum "rel-miss" "404"
          ("Could not find base branch: " ++ envC6a.prStatus.baseRef))
        ∈ (performCherryPick envC6a baseCfg true "rel-miss").snd.snd) ∧
    (∃ suffix, (performCherryPick envC6b baseCfg true "rel-miss").snd.snd =
      [ApiCall.get (Endpoint.prCommits baseCfg.prNum),
        ApiCall.get (Endpoint.branchRef "rel-miss")] ++
      (if true then [] else [ApiCall.get (Endpoint.prStatus baseCfg.prNum)]) ++
      [ApiCall.get (Endpoint.branchRef envC6b.prStatus.baseRef),
        ApiCall.postCreateBranch "rel-miss"
          ((getBranchSha envC6b envC6b.prStatus.baseRef).fst.getD "")] ++
      suffix) :=
  ⟨(cherry_pick_branch_creation_from_base envC6a baseCfg true "rel-miss"
      (by decide) (by decide) (by decide)).1 (by decide),
    (cherry_pick_branch_creation_from_base envC6b baseCfg true "rel-miss"
      (by decide) (by decide) (by decide)).2 (by decide) (by decide)⟩

end Boussole
